import Mathlib

/-!
Verification of the Mivna frontend against its design specification.

The development shallowly embeds the relevant parts of the TypeScript
source: pure computations become Lean functions, effectful handlers
become functions from their inputs (and the outcomes of the external
calls they make) to an explicit description of the actions they take.
Machine numbers are modelled as Nat, Int or Rat; JavaScript string
membership tests (String.prototype.includes) are modelled by an
executable substring check on the underlying character lists.
-/

/-- Boolean test that the first character list is a prefix of the second. -/
def listPrefixOf : List Char → List Char → Bool
  | [], _ => true
  | _ :: _, [] => false
  | c :: cs, d :: ds => c == d && listPrefixOf cs ds

/-- Boolean test that the first character list occurs contiguously inside the second. -/
def listInfixOf (sub : List Char) : List Char → Bool
  | [] => listPrefixOf sub []
  | c :: cs => listPrefixOf sub (c :: cs) || listInfixOf sub cs

/-- Model of the JavaScript expression s.includes (sub). -/
def jsIncludes (s sub : String) : Bool :=
  listInfixOf sub.data s.data

/-!
Embedding of src/lib/api.ts.
-/

/-- Model of DEFAULT_RETRY_CONFIG.retryOn from src/lib/api.ts, as a function of
the error message and the attempt number.  The branch order follows the source:
network first, then the 4xx and auth statuses, then the 5xx statuses, then
timeout, and finally the unknown-error fallback attempt < 2. -/
def defaultRetryOn (message : String) (attempt : Nat) : Bool :=
  if jsIncludes message "fetch" || jsIncludes message "network" then
    true
  else if jsIncludes message "401" || jsIncludes message "403" then
    false
  else if jsIncludes message "400" || jsIncludes message "404" then
    false
  else if jsIncludes message "500" || jsIncludes message "502" ||
      jsIncludes message "503" || jsIncludes message "504" then
    true
  else if jsIncludes message "timeout" || jsIncludes message "TIMEOUT" then
    true
  else
    decide (attempt < 2)

/-- Spec-level predicate: the message indicates a network failure. -/
def indicatesNetwork (m : String) : Bool :=
  jsIncludes m "fetch" || jsIncludes m "network"

/-- Spec-level predicate: the message indicates a timeout. -/
def indicatesTimeout (m : String) : Bool :=
  jsIncludes m "timeout" || jsIncludes m "TIMEOUT"

/-- Spec-level predicate: the message indicates a 5xx server status. -/
def indicatesServer5xx (m : String) : Bool :=
  jsIncludes m "500" || jsIncludes m "502" || jsIncludes m "503" || jsIncludes m "504"

/-- Spec-level predicate: the message indicates an auth status (401 or 403). -/
def indicatesAuth (m : String) : Bool :=
  jsIncludes m "401" || jsIncludes m "403"

/-- Spec-level predicate: the message indicates a client 4xx status (400 or 404). -/
def indicatesClient4xx (m : String) : Bool :=
  jsIncludes m "400" || jsIncludes m "404"

/-- Model of calculateBackoff from src/lib/api.ts.  The random draw of
Math.random () is passed in as the rational r; delays are rationals and the
result is the mathematical floor, mirroring Math.floor. -/
def calculateBackoff (attempt : Nat) (baseDelayMs maxDelayMs r : ℚ) : ℤ :=
  let exponentialDelay := min (baseDelayMs * 2 ^ attempt) maxDelayMs
  let jitter := exponentialDelay * (1 / 4) * (r - 1 / 2)
  Int.floor (exponentialDelay + jitter)

/-- Model of the for-loop of withRetry from src/lib/api.ts.  The behaviour of
the wrapped fn is given as a function from the attempt number to the outcome
of that invocation.  The second component of the result counts how many times
fn was invoked.  The fuel argument is maxRetries + 1 - attempt, the number of
loop iterations still allowed; the fuel-zero branch corresponds to the loop
exiting with the current lastError, which is threaded exactly as in the
source. -/
def withRetryLoop {ε α : Type} (fn : Nat → Except ε α) (retryOn : ε → Nat → Bool)
    (maxRetries : Nat) : Nat → Nat → ε → Except ε α × Nat
  | _, 0, lastError => (Except.error lastError, 0)
  | attempt, fuel + 1, _ =>
    match fn attempt with
    | Except.ok v => (Except.ok v, 1)
    | Except.error e =>
      -- shouldRetry = !isLastAttempt && retryOn (lastError, attempt)
      if attempt != maxRetries && retryOn e attempt then
        ((withRetryLoop fn retryOn maxRetries (attempt + 1) fuel e).1,
         (withRetryLoop fn retryOn maxRetries (attempt + 1) fuel e).2 + 1)
      else
        (Except.error e, 1)

/-- Model of withRetry from src/lib/api.ts: run the loop from attempt 0 with
maxRetries + 1 iterations allowed, starting from the initial lastError value
(the source initialises it to a fresh generic error). -/
def withRetry {ε α : Type} (fn : Nat → Except ε α) (retryOn : ε → Nat → Bool)
    (maxRetries : Nat) (initialError : ε) : Except ε α × Nat :=
  withRetryLoop fn retryOn maxRetries 0 (maxRetries + 1) initialError

/-- Error categories from the ApiErrorType const object in src/lib/api.ts. -/
inductive ApiErrorType where
  | NETWORK
  | AUTH
  | RATE_LIMIT
  | SERVER
  | CLIENT
  | TIMEOUT
  | UNKNOWN
  deriving DecidableEq

/-- Model of the isRetryable field computed by the ApiError constructor in
src/lib/api.ts: retryable exactly for the NETWORK, SERVER and TIMEOUT types. -/
def apiErrorIsRetryable (t : ApiErrorType) : Bool :=
  t == ApiErrorType.NETWORK || t == ApiErrorType.SERVER || t == ApiErrorType.TIMEOUT

/-- Model of the categorisation performed by ApiError.fromError in
src/lib/api.ts, as a function of the error message.  The branch order follows
the source. -/
def apiErrorTypeOfMessage (m : String) : ApiErrorType :=
  if jsIncludes m "fetch" || jsIncludes m "network" || jsIncludes m "ECONNREFUSED" then
    ApiErrorType.NETWORK
  else if jsIncludes m "401" || jsIncludes m "Unauthorized" then
    ApiErrorType.AUTH
  else if jsIncludes m "403" || jsIncludes m "Forbidden" then
    ApiErrorType.AUTH
  else if jsIncludes m "429" || jsIncludes m "rate limit" then
    ApiErrorType.RATE_LIMIT
  else if jsIncludes m "500" || jsIncludes m "502" || jsIncludes m "503" || jsIncludes m "504" then
    ApiErrorType.SERVER
  else if jsIncludes m "400" || jsIncludes m "404" then
    ApiErrorType.CLIENT
  else if jsIncludes m "timeout" || jsIncludes m "TIMEOUT" || jsIncludes m "AbortError" then
    ApiErrorType.TIMEOUT
  else
    ApiErrorType.UNKNOWN

/-- Fixed user-facing message per category, from the switch statement of
getUserFriendlyErrorMessage in src/lib/api.ts. -/
def friendlyMessage (t : ApiErrorType) : String :=
  match t with
  | ApiErrorType.NETWORK => "Unable to connect. Please check your internet connection and try again."
  | ApiErrorType.AUTH => "Your session has expired. Please log in again."
  | ApiErrorType.RATE_LIMIT => "Too many requests. Please wait a moment and try again."
  | ApiErrorType.SERVER => "Server error. Our team has been notified. Please try again later."
  | ApiErrorType.TIMEOUT => "Request timed out. Please try again."
  | ApiErrorType.CLIENT => "Invalid request. Please refresh the page and try again."
  | ApiErrorType.UNKNOWN => "Something went wrong. Please try again."

/-- Model of getUserFriendlyErrorMessage from src/lib/api.ts: categorise the
message with ApiError.fromError, then switch on the resulting type. -/
def getUserFriendlyErrorMessage (m : String) : String :=
  friendlyMessage (apiErrorTypeOfMessage m)

/-!
Embedding of the cached-session read of the AuthProvider (getCachedSession,
src/unnamed/part_002).
-/

/-- Shape of the JSON value cached under the auth storage key.  The
access_token and user fields record the JavaScript truthiness of the parsed
fields (the source only tests them with the ! operator); expires_at is the
expiry in seconds since the epoch when present. -/
structure ParsedAuthToken where
  access_token : Bool
  user : Bool
  expires_at : Option Int
  deriving DecidableEq

/-- Model of getCachedSession from src/unnamed/part_002.  The stored argument
is the state of localStorage at the auth key: none when no value is stored,
some none when a value is stored but JSON.parse throws, and some (some p)
when it parses to p.  The clock now is Date.now () in milliseconds. -/
def getCachedSession (stored : Option (Option ParsedAuthToken)) (now : Int) :
    Option ParsedAuthToken :=
  match stored with
  | none => none
  | some none => none
  | some (some parsed) =>
    if !parsed.access_token || !parsed.user then
      none
    else
      match parsed.expires_at with
      | some expiresAt =>
        -- expiryTime - bufferMs < Date.now () means the session is dropped
        if expiresAt * 1000 - 5 * 60 * 1000 < now then none else some parsed
      | none => some parsed

/-!
Embedding of the rate-limit bookkeeping of fetchRateLimits (useRateLimit hook,
src/hooks/useOrganization.tsx).
-/

/-- Hourly generation limit from the useRateLimit hook. -/
def HOURLY_LIMIT : Nat := 5

/-- Total beta generation limit from the useRateLimit hook. -/
def BETA_LIMIT : Nat := 10

/-- Profile row columns read by fetchRateLimits.  Counter columns are Option
to model SQL null; the JavaScript coercions (x || 0, and null comparing as 0)
are applied in the computation below.  Timestamps are milliseconds. -/
structure RateProfileRow where
  diagrams_generated : Option Nat
  readmes_generated : Option Nat
  last_diagram_at : Option Int
  diagrams_this_hour : Option Nat
  last_readme_at : Option Int
  readmes_this_hour : Option Nat
  deriving DecidableEq

/-- Fields of the state written by fetchRateLimits that the rate-limit logic
determines. -/
structure RateLimitOutcome where
  diagramsThisHour : Nat
  readmesThisHour : Nat
  canGenerateDiagram : Bool
  canGenerateReadme : Bool
  diagramCooldownEndsAt : Option Int
  readmeCooldownEndsAt : Option Int
  deriving DecidableEq

/-- Model of the computation fetchRateLimits performs on a fetched profile
row at clock now (milliseconds). -/
def fetchRateLimitsCompute (p : RateProfileRow) (now : Int) : RateLimitOutcome :=
  let hourAgo := now - 60 * 60 * 1000
  let diagramsThisHour :=
    match p.last_diagram_at with
    | none => 0
    | some t => if t < hourAgo then 0 else p.diagrams_this_hour.getD 0
  let readmesThisHour :=
    match p.last_readme_at with
    | none => 0
    | some t => if t < hourAgo then 0 else p.readmes_this_hour.getD 0
  let diagramCooldownEndsAt :=
    if decide (diagramsThisHour ≥ HOURLY_LIMIT) && p.last_diagram_at.isSome then
      p.last_diagram_at.map (fun t => t + 60 * 60 * 1000)
    else
      none
  let readmeCooldownEndsAt :=
    if decide (readmesThisHour ≥ HOURLY_LIMIT) && p.last_readme_at.isSome then
      p.last_readme_at.map (fun t => t + 60 * 60 * 1000)
    else
      none
  { diagramsThisHour := diagramsThisHour
    readmesThisHour := readmesThisHour
    canGenerateDiagram :=
      decide (p.diagrams_generated.getD 0 < BETA_LIMIT) && decide (diagramsThisHour < HOURLY_LIMIT)
    canGenerateReadme :=
      decide (p.readmes_generated.getD 0 < BETA_LIMIT) && decide (readmesThisHour < HOURLY_LIMIT)
    diagramCooldownEndsAt := diagramCooldownEndsAt
    readmeCooldownEndsAt := readmeCooldownEndsAt }

/-!
Embedding of createOrg (src/hooks/useOrganization.tsx).
-/

/-- Possible outcomes of the createOrg limit check: the early null return when
no user is logged in, the thrown limit error, or reaching the insert call. -/
inductive CreateOrgOutcome where
  | noUser
  | threw
  | inserted
  deriving DecidableEq

/-- Model of the control flow of createOrg from src/hooks/useOrganization.tsx
up to the database insert.  The tier is profile?.subscription_tier (none when
the profile or the column is absent); the JavaScript || makes the empty string
fall back to free as well.  The limit is 1 for free, 5 for pro and Infinity
otherwise, modelled as Option Nat with none for Infinity (a Nat count is never
≥ Infinity).  ownedCount is the number of organizations in userOrgs owned by
the current user. -/
def createOrg (userPresent : Bool) (subscription_tier : Option String)
    (ownedCount : Nat) : CreateOrgOutcome :=
  if !userPresent then
    CreateOrgOutcome.noUser
  else
    let tier := match subscription_tier with
      | none => "free"
      | some s => if s = "" then "free" else s
    let limit : Option Nat :=
      if tier = "free" then some 1 else if tier = "pro" then some 5 else none
    match limit with
    | some l => if ownedCount ≥ l then CreateOrgOutcome.threw else CreateOrgOutcome.inserted
    | none => CreateOrgOutcome.inserted

/-!
Embedding of the diagram viewer page (src/pages/DiagramViewer.tsx): the
repository diagram list, the active diagram type and the operations that
change them.
-/

/-- The four diagram variants of the activeDiagramType union type. -/
inductive DiagramType where
  | flowchart
  | erd
  | sequence
  | component
  deriving DecidableEq

/-- A row of repository_diagrams as used by the viewer. -/
structure RepositoryDiagram where
  diagram_type : DiagramType
  diagram_code : String
  deriving DecidableEq

/-- The component state of DiagramViewer relevant to diagram-type selection. -/
structure DiagramViewerState where
  repository_diagrams : List RepositoryDiagram
  activeDiagramType : DiagramType
  currentDiagramCode : Option String
  deriving DecidableEq

/-- Initial component state: useState defaults the active type to flowchart,
with no repository loaded yet. -/
def initialViewerState : DiagramViewerState :=
  { repository_diagrams := []
    activeDiagramType := DiagramType.flowchart
    currentDiagramCode := none }

/-- Model of a successful fetchRepository: store the fetched diagram list and,
when it is non-empty, set the active type to the type of its first element. -/
def loadRepository (s : DiagramViewerState) (fetched : List RepositoryDiagram) :
    DiagramViewerState :=
  match fetched with
  | [] => { s with repository_diagrams := fetched }
  | d :: _ =>
    { s with repository_diagrams := fetched, activeDiagramType := d.diagram_type }

/-- Model of a click on the diagram-type tab for t: the onClick handler only
sets the active type when a diagram of that type exists (the button is also
rendered disabled in that case). -/
def clickDiagramTab (s : DiagramViewerState) (t : DiagramType) : DiagramViewerState :=
  match s.repository_diagrams.find? (fun d => d.diagram_type == t) with
  | some _ => { s with activeDiagramType := t }
  | none => s

/-- Model of the effect that runs when the active type or the repository
changes: look up the diagram of the active type and store its code. -/
def syncDiagramCode (s : DiagramViewerState) : DiagramViewerState :=
  let diagram := s.repository_diagrams.find? (fun d => d.diagram_type == s.activeDiagramType)
  { s with currentDiagramCode := diagram.map (fun d => d.diagram_code) }

/-- One viewer operation: an initial or refreshed load, a tab click, or the
code-sync effect on a type switch. -/
inductive ViewerStep : DiagramViewerState → DiagramViewerState → Prop where
  | load (s : DiagramViewerState) (fetched : List RepositoryDiagram) :
      ViewerStep s (loadRepository s fetched)
  | click (s : DiagramViewerState) (t : DiagramType) :
      ViewerStep s (clickDiagramTab s t)
  | sync (s : DiagramViewerState) :
      ViewerStep s (syncDiagramCode s)

/-- States of the viewer reachable from the initial state by the operations. -/
inductive ViewerReachable : DiagramViewerState → Prop where
  | init : ViewerReachable initialViewerState
  | step {s s2 : DiagramViewerState} :
      ViewerReachable s → ViewerStep s s2 → ViewerReachable s2

/-!
Embedding of signOut (src/hooks/useAuth.tsx and the AuthProvider variant in
src/unnamed/part_002).
-/

/-- The auth-related client state signOut manipulates: the three state
variables and the two storages (modelled by their key lists). -/
structure AuthUiState where
  user : Option String
  profile : Option String
  session : Option String
  localStorageKeys : List String
  sessionStorageKeys : List String
  deriving DecidableEq

/-- Model of signOut from src/hooks/useAuth.tsx.  backendFails tells whether
the awaited supabase.auth.signOut () call throws.  On success the try block
clears the three state variables and both storages; on failure the catch
block performs exactly the same clearing.  Either way signOut returns
normally, so the result is Except.ok. -/
def signOut (backendFails : Bool) (s : AuthUiState) : Except String AuthUiState :=
  if backendFails then
    -- catch branch: still clear local state even if Supabase logout fails
    Except.ok { s with user := none, profile := none, session := none,
                       localStorageKeys := [], sessionStorageKeys := [] }
  else
    Except.ok { s with user := none, profile := none, session := none,
                       localStorageKeys := [], sessionStorageKeys := [] }

/-- Model of the signOut variant in src/unnamed/part_002: the try/catch only
wraps the backend call (with a timeout), and the clearing of state and both
storages runs unconditionally afterwards. -/
def signOutCached (backendFails : Bool) (s : AuthUiState) : Except String AuthUiState :=
  -- the catch branch only logs; both paths fall through to the clearing code
  let _ := backendFails
  Except.ok { s with user := none, profile := none, session := none,
                     localStorageKeys := [], sessionStorageKeys := [] }

/-!
Embedding of handleRemoveMember (src/pages/TeamSettings.tsx).
-/

/-- Membership roles from the OrgMember interface. -/
inductive MemberRole where
  | owner
  | admin
  | member
  | viewer
  deriving DecidableEq

/-- The fields of an OrgMember that handleRemoveMember uses. -/
structure TeamMember where
  id : String
  role : MemberRole
  deriving DecidableEq

/-- Observable actions of one handleRemoveMember run. -/
structure RemoveMemberTrace where
  removeMemberCalledOn : Option String
  toast : String
  reloaded : Bool
  deriving DecidableEq

/-- Model of handleRemoveMember from src/pages/TeamSettings.tsx.
removeSucceeds is the boolean returned by the removeMember operation when it
is invoked. -/
def handleRemoveMember (m : TeamMember) (removeSucceeds : Bool) : RemoveMemberTrace :=
  if m.role = MemberRole.owner then
    { removeMemberCalledOn := none, toast := "Cannot remove the owner", reloaded := false }
  else if removeSucceeds then
    { removeMemberCalledOn := some m.id, toast := "Member removed", reloaded := true }
  else
    { removeMemberCalledOn := some m.id, toast := "Failed to remove member", reloaded := false }

/-!
Theorems.
-/

/-- Helper for C1: behaviour of the retry loop from any attempt, by induction
on the remaining fuel. -/
theorem withRetryLoop_spec {ε α : Type} (fn : Nat → Except ε α) (retryOn : ε → Nat → Bool)
    (maxRetries : Nat) :
    ∀ (fuel attempt : Nat) (lastError : ε), 1 ≤ fuel → attempt + fuel = maxRetries + 1 →
      1 ≤ (withRetryLoop fn retryOn maxRetries attempt fuel lastError).2 ∧
      (withRetryLoop fn retryOn maxRetries attempt fuel lastError).2 ≤ fuel ∧
      (∀ i, i + 1 < (withRetryLoop fn retryOn maxRetries attempt fuel lastError).2 →
        ∃ e, fn (attempt + i) = Except.error e) ∧
      (∀ v, (withRetryLoop fn retryOn maxRetries attempt fuel lastError).1 = Except.ok v →
        fn (attempt + (withRetryLoop fn retryOn maxRetries attempt fuel lastError).2 - 1) =
          Except.ok v) ∧
      (∀ e, (withRetryLoop fn retryOn maxRetries attempt fuel lastError).1 = Except.error e →
        fn (attempt + (withRetryLoop fn retryOn maxRetries attempt fuel lastError).2 - 1) =
          Except.error e) := by
  intro fuel
  induction fuel with
  | zero =>
    intro attempt lastError h1 _
    exact absurd h1 (by omega)
  | succ k ih =>
    intro attempt lastError _ h2
    cases hfn : fn attempt with
    | ok v =>
      simp only [withRetryLoop, hfn]
      refine ⟨le_refl 1, by omega, ?_, ?_, ?_⟩
      · intro i hi
        exact absurd hi (by omega)
      · intro w hw
        simp only [Nat.add_sub_cancel]
        rw [hfn]
        exact hw
      · intro e he
        exact absurd he (by simp)
    | error e =>
      simp only [withRetryLoop, hfn]
      by_cases hc : (attempt != maxRetries && retryOn e attempt) = true
      · rw [if_pos hc]
        have hne : attempt ≠ maxRetries := by
          have := (Bool.and_eq_true _ _).mp hc
          exact bne_iff_ne.mp this.1
        obtain ⟨q1, q2, q3, q4, q5⟩ := ih (attempt + 1) e (by omega) (by omega)
        refine ⟨by omega, by omega, ?_, ?_, ?_⟩
        · intro i hi
          match i with
          | 0 => exact ⟨e, by simpa using hfn⟩
          | Nat.succ j =>
            obtain ⟨e2, he2⟩ := q3 j (by simp at hi; omega)
            refine ⟨e2, ?_⟩
            rw [show attempt + (j + 1) = attempt + 1 + j by omega]
            exact he2
        · intro v hv
          have h4 := q4 v hv
          rw [show attempt + ((withRetryLoop fn retryOn maxRetries (attempt + 1) k e).2 + 1) - 1 =
            attempt + 1 + (withRetryLoop fn retryOn maxRetries (attempt + 1) k e).2 - 1 by omega]
          exact h4
        · intro e2 he2
          have h5 := q5 e2 he2
          rw [show attempt + ((withRetryLoop fn retryOn maxRetries (attempt + 1) k e).2 + 1) - 1 =
            attempt + 1 + (withRetryLoop fn retryOn maxRetries (attempt + 1) k e).2 - 1 by omega]
          exact h5
      · rw [if_neg hc]
        refine ⟨le_refl 1, by omega, ?_, ?_, ?_⟩
        · intro i hi
          exact absurd hi (by omega)
        · intro v hv
          exact absurd hv (by simp)
        · intro e2 he2
          simp only [Nat.add_sub_cancel]
          rw [hfn]
          exact he2

/-- C1: for every wrapped function and every retry configuration, withRetry
invokes fn between 1 and maxRetries + 1 times (the second component counts
the invocations); every invocation before the last one threw; when withRetry
returns a value it is the value of the last invocation made (so a successful
invocation ends the loop with no further invocations); and when withRetry
throws, the thrown error is the one raised by the last invocation made. -/
theorem withRetry_spec {ε α : Type} (fn : Nat → Except ε α) (retryOn : ε → Nat → Bool)
    (maxRetries : Nat) (initialError : ε) :
    1 ≤ (withRetry fn retryOn maxRetries initialError).2 ∧
    (withRetry fn retryOn maxRetries initialError).2 ≤ maxRetries + 1 ∧
    (∀ i, i + 1 < (withRetry fn retryOn maxRetries initialError).2 →
      ∃ e, fn i = Except.error e) ∧
    (∀ v, (withRetry fn retryOn maxRetries initialError).1 = Except.ok v →
      fn ((withRetry fn retryOn maxRetries initialError).2 - 1) = Except.ok v) ∧
    (∀ e, (withRetry fn retryOn maxRetries initialError).1 = Except.error e →
      fn ((withRetry fn retryOn maxRetries initialError).2 - 1) = Except.error e) := by
  have h := withRetryLoop_spec fn retryOn maxRetries (maxRetries + 1) 0 initialError
    (by omega) (by omega)
  simpa [withRetry] using h

/-- Concrete wrapped function for the C1 witness: fails on attempt 0 and
succeeds on attempt 1. -/
def c1fn : Nat → Except String Nat :=
  fun i => if i == 1 then Except.ok 42 else Except.error "boom"

/-- Concrete classifier for the C1 witness: always retry. -/
def c1retryOn : String → Nat → Bool := fun _ _ => true

/-- Witness for C1: on a run that succeeds at the second invocation, the
theorem yields that the returned value is the one produced by the last
invocation made. -/
theorem withRetry_spec_witness :
    c1fn ((withRetry c1fn c1retryOn 3 "init").2 - 1) = Except.ok 42 :=
  (withRetry_spec c1fn c1retryOn 3 "init").2.2.2.1 42 rfl

/-- Counterexample for C2: the message boom indicates neither a network
failure, nor a timeout, nor a 5xx status, yet the default classifier judges
it retryable at attempt 0 (the unknown-error fallback allows one extra
retry), so retryability is not exactly the network/timeout/5xx condition. -/
theorem defaultRetryOn_counterexample :
    defaultRetryOn "boom" 0 = true ∧
    indicatesNetwork "boom" = false ∧ indicatesTimeout "boom" = false ∧
    indicatesServer5xx "boom" = false := by
  decide

/-- Helper for C2: the default classifier as a boolean combination of the
spec-level indicator predicates, proved by exhausting the finitely many
truth values the indicators can take. -/
theorem defaultRetryOn_amended_bool (m : String) (attempt : Nat) :
    defaultRetryOn m attempt =
      (indicatesNetwork m ||
       (!indicatesAuth m && !indicatesClient4xx m &&
         (indicatesServer5xx m || indicatesTimeout m)) ||
       (!indicatesNetwork m && !indicatesAuth m && !indicatesClient4xx m &&
        !indicatesServer5xx m && !indicatesTimeout m && decide (attempt < 2))) := by
  unfold defaultRetryOn indicatesNetwork indicatesTimeout indicatesServer5xx indicatesAuth
    indicatesClient4xx
  generalize jsIncludes m "fetch" = b1
  generalize jsIncludes m "network" = b2
  generalize jsIncludes m "401" = b3
  generalize jsIncludes m "403" = b4
  generalize jsIncludes m "400" = b5
  generalize jsIncludes m "404" = b6
  generalize jsIncludes m "500" = b7
  generalize jsIncludes m "502" = b8
  generalize jsIncludes m "503" = b9
  generalize jsIncludes m "504" = b10
  generalize jsIncludes m "timeout" = b11
  generalize jsIncludes m "TIMEOUT" = b12
  generalize decide (attempt < 2) = b13
  revert b1 b2 b3 b4 b5 b6 b7 b8 b9 b10 b11 b12 b13
  decide

/-- C2 (amended): the default classifier judges an error retryable exactly
when its message indicates a network failure, or indicates a 5xx or timeout
without indicating an auth or client 4xx status, or carries none of the
indicators and the attempt number is 0 or 1 (the unknown-error fallback);
messages indicating an auth or client 4xx status without a network indicator
are never retried. -/
theorem defaultRetryOn_amended (m : String) (attempt : Nat) :
    defaultRetryOn m attempt = true ↔
      (indicatesNetwork m = true ∨
       (indicatesAuth m = false ∧ indicatesClient4xx m = false ∧
         (indicatesServer5xx m = true ∨ indicatesTimeout m = true)) ∨
       (indicatesNetwork m = false ∧ indicatesAuth m = false ∧ indicatesClient4xx m = false ∧
        indicatesServer5xx m = false ∧ indicatesTimeout m = false ∧ attempt < 2)) := by
  rw [defaultRetryOn_amended_bool]
  simp only [Bool.or_eq_true, Bool.and_eq_true, Bool.not_eq_true', decide_eq_true_eq]
  tauto

/-- Witness for C2: a message indicating a 503 status with no auth or 4xx
indicator is judged retryable. -/
theorem defaultRetryOn_amended_witness : defaultRetryOn "HTTP 503" 0 = true :=
  (defaultRetryOn_amended "HTTP 503" 0).mpr
    (Or.inr (Or.inl ⟨by decide, by decide, Or.inl (by decide)⟩))

/-- Helper for C3: calculateBackoff unfolded to its floor expression. -/
theorem calculateBackoff_unfold (attempt : Nat) (base maxd r : ℚ) :
    calculateBackoff attempt base maxd r =
      Int.floor (min (base * 2 ^ attempt) maxd +
        min (base * 2 ^ attempt) maxd * (1 / 4) * (r - 1 / 2)) := rfl

/-- Counterexample for C3: with a negative baseDelayMs the capped delay d is
negative and the claimed upper bound delay ≤ 1.125 * d fails: at attempt 0,
baseDelayMs = -1000, maxDelayMs = 10000 and random draw 0 the computed delay
is -875 while 1.125 * d = -1125. -/
theorem calculateBackoff_counterexample :
    calculateBackoff 0 (-1000) 10000 0 = -875 ∧
    ¬((calculateBackoff 0 (-1000) 10000 0 : ℚ) ≤
        (9 / 8) * min ((-1000 : ℚ) * 2 ^ 0) 10000) := by
  have h : calculateBackoff 0 (-1000) 10000 0 = -875 := by
    unfold calculateBackoff
    norm_num
  refine ⟨h, ?_⟩
  rw [h]
  rw [show min ((-1000 : ℚ) * 2 ^ 0) 10000 = -1000 by norm_num]
  norm_num

/-- C3 (amended): for nonnegative baseDelayMs and maxDelayMs and a random
draw r in the interval from 0 inclusive to 1 exclusive, the delay equals
floor (d + d * 0.25 * (r - 0.5)) with d = min (baseDelayMs * 2 ^ attempt,
maxDelayMs), lies between 0.875 * d - 1 and 1.125 * d, and never exceeds
1.125 * maxDelayMs. -/
theorem calculateBackoff_bounds (attempt : Nat) (base maxd r d : ℚ)
    (hb : 0 ≤ base) (hm : 0 ≤ maxd) (hr0 : 0 ≤ r) (hr1 : r < 1)
    (hd : d = min (base * 2 ^ attempt) maxd) :
    calculateBackoff attempt base maxd r = Int.floor (d + d * (1 / 4) * (r - 1 / 2)) ∧
    (7 / 8) * d - 1 ≤ (calculateBackoff attempt base maxd r : ℚ) ∧
    (calculateBackoff attempt base maxd r : ℚ) ≤ (9 / 8) * d ∧
    (calculateBackoff attempt base maxd r : ℚ) ≤ (9 / 8) * maxd := by
  have hd0 : 0 ≤ d := hd ▸ le_min (mul_nonneg hb (by positivity)) hm
  have hdm : d ≤ maxd := hd ▸ min_le_right _ _
  have heq : calculateBackoff attempt base maxd r =
      Int.floor (d + d * (1 / 4) * (r - 1 / 2)) := by
    rw [calculateBackoff_unfold, hd]
  have hlow : (7 / 8) * d ≤ d + d * (1 / 4) * (r - 1 / 2) := by
    nlinarith [mul_nonneg hd0 hr0]
  have hup : d + d * (1 / 4) * (r - 1 / 2) ≤ (9 / 8) * d := by
    nlinarith [mul_nonneg hd0 (by linarith : (0 : ℚ) ≤ 1 - r)]
  have hfl := Int.floor_le (d + d * (1 / 4) * (r - 1 / 2))
  have hfg := Int.sub_one_lt_floor (d + d * (1 / 4) * (r - 1 / 2))
  refine ⟨heq, ?_, ?_, ?_⟩
  · rw [heq]
    linarith
  · rw [heq]
    linarith
  · rw [heq]
    linarith

/-- Witness for C3: the default configuration at attempt 2 with random draw
one half satisfies the lower jitter bound around d = 4000. -/
theorem calculateBackoff_bounds_witness :
    (7 / 8) * (4000 : ℚ) - 1 ≤ (calculateBackoff 2 1000 10000 (1 / 2) : ℚ) :=
  (calculateBackoff_bounds 2 1000 10000 (1 / 2) 4000 (by norm_num) (by norm_num)
    (by norm_num) (by norm_num) (by norm_num)).2.1

/-- Counterexample for C4: a cached session whose expiry lies exactly 5
minutes in the future (expires_at 300 seconds, now 0 milliseconds) is
returned non-null by getCachedSession although the expiry is not more than 5
minutes in the future. -/
theorem getCachedSession_counterexample :
    (getCachedSession (some (some ⟨true, true, some 300⟩)) 0).isSome = true ∧
    ¬((300 : Int) * 1000 > 0 + 5 * 60 * 1000) := by
  decide

/-- C4 (amended): getCachedSession returns a non-null session exactly when
the stored value parses, its access_token and user fields are truthy, and
any expires_at present lies at least 5 minutes in the future; in every other
case (no stored value, parse failure, falsy access_token or user, or expiry
earlier than 5 minutes from now) it returns null. -/
theorem getCachedSession_spec (stored : Option (Option ParsedAuthToken)) (now : Int) :
    (∃ p, getCachedSession stored now = some p) ↔
      (∃ p, stored = some (some p) ∧ p.access_token = true ∧ p.user = true ∧
        (∀ e, p.expires_at = some e → now + 5 * 60 * 1000 ≤ e * 1000)) := by
  rcases stored with _ | (_ | p)
  · simp [getCachedSession]
  · simp [getCachedSession]
  · rcases p with ⟨a, u, ea⟩
    rcases a <;> rcases u
    · simp [getCachedSession]
    · simp [getCachedSession]
    · simp [getCachedSession]
    · rcases ea with _ | e
      · constructor
        · intro _
          exact ⟨⟨true, true, none⟩, rfl, rfl, rfl, fun e he => by cases he⟩
        · intro _
          exact ⟨⟨true, true, none⟩, by simp [getCachedSession]⟩
      · by_cases hlt : e * 1000 - 5 * 60 * 1000 < now
        · constructor
          · intro h
            rcases h with ⟨p2, hp2⟩
            simp [getCachedSession, hlt] at hp2
            exact absurd hp2.1 (by omega)
          · rintro ⟨p2, hp2, _, _, hcond⟩
            injection hp2 with hp2
            injection hp2 with hp2
            subst hp2
            have := hcond e rfl
            omega
        · constructor
          · intro _
            refine ⟨⟨true, true, some e⟩, rfl, rfl, rfl, ?_⟩
            intro e2 he2
            injection he2 with he2
            subst he2
            omega
          · intro _
            refine ⟨⟨true, true, some e⟩, ?_⟩
            simp [getCachedSession, hlt]
            omega

/-- Witness for C4: a truthy token with no expiry is returned non-null. -/
theorem getCachedSession_spec_witness :
    ∃ p, getCachedSession (some (some ⟨true, true, none⟩)) 0 = some p :=
  (getCachedSession_spec (some (some ⟨true, true, none⟩)) 0).mpr
    ⟨⟨true, true, none⟩, rfl, rfl, rfl, fun e he => by cases he⟩

/-- Helper for C5: diagram-side rate-limit facts. -/
theorem rateLimits_diagram_side (p : RateProfileRow) (now : Int) :
    ((fetchRateLimitsCompute p now).canGenerateDiagram = true ↔
      (p.diagrams_generated.getD 0 < BETA_LIMIT ∧
        (fetchRateLimitsCompute p now).diagramsThisHour < HOURLY_LIMIT)) ∧
    ((fetchRateLimitsCompute p now).diagramsThisHour =
      match p.last_diagram_at with
      | none => 0
      | some t => if now - t > 60 * 60 * 1000 then 0 else p.diagrams_this_hour.getD 0) ∧
    ((fetchRateLimitsCompute p now).diagramsThisHour ≥ HOURLY_LIMIT →
      ∃ t, p.last_diagram_at = some t ∧
        (fetchRateLimitsCompute p now).diagramCooldownEndsAt = some (t + 60 * 60 * 1000)) ∧
    ((fetchRateLimitsCompute p now).diagramsThisHour < HOURLY_LIMIT →
      (fetchRateLimitsCompute p now).diagramCooldownEndsAt = none) := by
  rcases hld : p.last_diagram_at with _ | t
  · simp [fetchRateLimitsCompute, hld, HOURLY_LIMIT, BETA_LIMIT]
  · by_cases hold : t < now - 60 * 60 * 1000
    · simp [fetchRateLimitsCompute, hld, hold, HOURLY_LIMIT, BETA_LIMIT]
      split_ifs <;> omega
    · simp [fetchRateLimitsCompute, hld, hold, HOURLY_LIMIT, BETA_LIMIT]
      split_ifs <;> omega

/-- Helper for C5: readme-side rate-limit facts, symmetric to the diagram
side. -/
theorem rateLimits_readme_side (p : RateProfileRow) (now : Int) :
    ((fetchRateLimitsCompute p now).canGenerateReadme = true ↔
      (p.readmes_generated.getD 0 < BETA_LIMIT ∧
        (fetchRateLimitsCompute p now).readmesThisHour < HOURLY_LIMIT)) ∧
    ((fetchRateLimitsCompute p now).readmesThisHour =
      match p.last_readme_at with
      | none => 0
      | some t => if now - t > 60 * 60 * 1000 then 0 else p.readmes_this_hour.getD 0) ∧
    ((fetchRateLimitsCompute p now).readmesThisHour ≥ HOURLY_LIMIT →
      ∃ t, p.last_readme_at = some t ∧
        (fetchRateLimitsCompute p now).readmeCooldownEndsAt = some (t + 60 * 60 * 1000)) ∧
    ((fetchRateLimitsCompute p now).readmesThisHour < HOURLY_LIMIT →
      (fetchRateLimitsCompute p now).readmeCooldownEndsAt = none) := by
  rcases hlr : p.last_readme_at with _ | t
  · simp [fetchRateLimitsCompute, hlr, HOURLY_LIMIT, BETA_LIMIT]
  · by_cases hold : t < now - 60 * 60 * 1000
    · simp [fetchRateLimitsCompute, hlr, hold, HOURLY_LIMIT, BETA_LIMIT]
      split_ifs <;> omega
    · simp [fetchRateLimitsCompute, hlr, hold, HOURLY_LIMIT, BETA_LIMIT]
      split_ifs <;> omega

/-- C5: after fetchRateLimits processes a profile row, canGenerateDiagram
holds exactly when the total generated is below the beta limit of 10 and the
adjusted this-hour counter is below the hourly limit of 5, where the counter
is 0 whenever the last diagram time is absent or more than one hour in the
past; when the hourly limit is reached the cooldown end is the last diagram
time plus exactly one hour, and otherwise it is null; and symmetrically for
READMEs. -/
theorem fetchRateLimits_spec (p : RateProfileRow) (now : Int) :
    (((fetchRateLimitsCompute p now).canGenerateDiagram = true ↔
      (p.diagrams_generated.getD 0 < BETA_LIMIT ∧
        (fetchRateLimitsCompute p now).diagramsThisHour < HOURLY_LIMIT)) ∧
    ((fetchRateLimitsCompute p now).diagramsThisHour =
      match p.last_diagram_at with
      | none => 0
      | some t => if now - t > 60 * 60 * 1000 then 0 else p.diagrams_this_hour.getD 0) ∧
    ((fetchRateLimitsCompute p now).diagramsThisHour ≥ HOURLY_LIMIT →
      ∃ t, p.last_diagram_at = some t ∧
        (fetchRateLimitsCompute p now).diagramCooldownEndsAt = some (t + 60 * 60 * 1000)) ∧
    ((fetchRateLimitsCompute p now).diagramsThisHour < HOURLY_LIMIT →
      (fetchRateLimitsCompute p now).diagramCooldownEndsAt = none)) ∧
    (((fetchRateLimitsCompute p now).canGenerateReadme = true ↔
      (p.readmes_generated.getD 0 < BETA_LIMIT ∧
        (fetchRateLimitsCompute p now).readmesThisHour < HOURLY_LIMIT)) ∧
    ((fetchRateLimitsCompute p now).readmesThisHour =
      match p.last_readme_at with
      | none => 0
      | some t => if now - t > 60 * 60 * 1000 then 0 else p.readmes_this_hour.getD 0) ∧
    ((fetchRateLimitsCompute p now).readmesThisHour ≥ HOURLY_LIMIT →
      ∃ t, p.last_readme_at = some t ∧
        (fetchRateLimitsCompute p now).readmeCooldownEndsAt = some (t + 60 * 60 * 1000)) ∧
    ((fetchRateLimitsCompute p now).readmesThisHour < HOURLY_LIMIT →
      (fetchRateLimitsCompute p now).readmeCooldownEndsAt = none)) :=
  ⟨rateLimits_diagram_side p now, rateLimits_readme_side p now⟩

/-- Concrete profile row for the C5 witness: 3 diagrams in total, 5 diagrams
this hour, last diagram 200 seconds before the clock. -/
def c5row : RateProfileRow := ⟨some 3, some 2, some 7000000, some 5, none, none⟩

/-- Witness for C5: with the hourly limit reached, the cooldown ends exactly
one hour after the last diagram time. -/
theorem fetchRateLimits_spec_witness :
    ∃ t, c5row.last_diagram_at = some t ∧
      (fetchRateLimitsCompute c5row 7200000).diagramCooldownEndsAt =
        some (t + 60 * 60 * 1000) :=
  (fetchRateLimits_spec c5row 7200000).1.2.2.1 (by decide)

/-- C6: every error message is assigned exactly one of the seven categories
by ApiError.fromError; getUserFriendlyErrorMessage returns the fixed message
for that category; and an ApiError is retryable exactly when its category is
NETWORK, SERVER or TIMEOUT. -/
theorem apiError_classification (m : String) :
    (apiErrorTypeOfMessage m = ApiErrorType.NETWORK ∨
     apiErrorTypeOfMessage m = ApiErrorType.AUTH ∨
     apiErrorTypeOfMessage m = ApiErrorType.RATE_LIMIT ∨
     apiErrorTypeOfMessage m = ApiErrorType.SERVER ∨
     apiErrorTypeOfMessage m = ApiErrorType.CLIENT ∨
     apiErrorTypeOfMessage m = ApiErrorType.TIMEOUT ∨
     apiErrorTypeOfMessage m = ApiErrorType.UNKNOWN) ∧
    getUserFriendlyErrorMessage m = friendlyMessage (apiErrorTypeOfMessage m) ∧
    (apiErrorIsRetryable (apiErrorTypeOfMessage m) = true ↔
      (apiErrorTypeOfMessage m = ApiErrorType.NETWORK ∨
       apiErrorTypeOfMessage m = ApiErrorType.SERVER ∨
       apiErrorTypeOfMessage m = ApiErrorType.TIMEOUT)) := by
  refine ⟨?_, rfl, ?_⟩
  · cases h : apiErrorTypeOfMessage m <;> simp
  · cases h : apiErrorTypeOfMessage m <;> simp [apiErrorIsRetryable]

/-- Witness for C6: a 500 message is categorised retryable. -/
theorem apiError_classification_witness :
    apiErrorIsRetryable (apiErrorTypeOfMessage "HTTP 500: oops") = true :=
  (apiError_classification "HTTP 500: oops").2.2.mpr (Or.inr (Or.inl (by decide)))

/-- C7: with a user present, createOrg throws before any insert exactly when
the owned-organization count has reached the tier limit: 1 for the free tier
and for an absent tier, 5 for pro; for enterprise the insert is always
attempted. -/
theorem createOrg_limits (tier : Option String) (n : Nat) :
    ((tier = none ∨ tier = some "free") →
      ((1 ≤ n → createOrg true tier n = CreateOrgOutcome.threw) ∧
       (n = 0 → createOrg true tier n = CreateOrgOutcome.inserted))) ∧
    (tier = some "pro" →
      ((5 ≤ n → createOrg true tier n = CreateOrgOutcome.threw) ∧
       (n < 5 → createOrg true tier n = CreateOrgOutcome.inserted))) ∧
    (tier = some "enterprise" → createOrg true tier n = CreateOrgOutcome.inserted) := by
  refine ⟨?_, ?_, ?_⟩
  · rintro (rfl | rfl) <;>
      exact ⟨fun h => by simp [createOrg, h], fun h => by subst h; simp [createOrg]⟩
  · rintro rfl
    constructor
    · intro h
      simp [createOrg, h]
    · intro h
      simp [createOrg]
      omega
  · rintro rfl
    simp [createOrg]

/-- Witness for C7: a free-tier user who already owns one organization is
stopped before the insert. -/
theorem createOrg_limits_witness :
    createOrg true (some "free") 1 = CreateOrgOutcome.threw :=
  ((createOrg_limits (some "free") 1).1 (Or.inr rfl)).1 (by omega)

/-- C8: in every reachable viewer state the active diagram type is one of
the four variants; whenever the repository diagram list is non-empty a
diagram of the active type exists in it; and clicking a tab whose type has
no diagram leaves the state unchanged, so a tab can only be selected when a
diagram of that type exists. -/
theorem diagramViewer_invariant (s : DiagramViewerState) (h : ViewerReachable s) :
    (s.activeDiagramType = DiagramType.flowchart ∨ s.activeDiagramType = DiagramType.erd ∨
     s.activeDiagramType = DiagramType.sequence ∨ s.activeDiagramType = DiagramType.component) ∧
    (s.repository_diagrams ≠ [] →
      ∃ d, d ∈ s.repository_diagrams ∧ d.diagram_type = s.activeDiagramType) ∧
    (∀ t, s.repository_diagrams.find? (fun d => d.diagram_type == t) = none →
      clickDiagramTab s t = s) := by
  refine ⟨?_, ?_, ?_⟩
  · cases s.activeDiagramType <;> simp
  · induction h with
    | init => simp [initialViewerState]
    | step hr hs ih =>
      rename_i s1 s2
      cases hs with
      | load fetched =>
        cases fetched with
        | nil => simp [loadRepository]
        | cons d rest =>
          intro _
          exact ⟨d, by simp [loadRepository], by simp [loadRepository]⟩
      | click t =>
        cases hfind : s1.repository_diagrams.find? (fun d => d.diagram_type == t) with
        | none =>
          simpa [clickDiagramTab, hfind] using ih
        | some d =>
          intro _
          refine ⟨d, ?_, ?_⟩
          · simp [clickDiagramTab, hfind]
            exact List.mem_of_find?_eq_some hfind
          · have := List.find?_some hfind
            simp [clickDiagramTab, hfind]
            exact eq_of_beq this
      | sync =>
        simpa [syncDiagramCode] using ih
  · intro t hf
    simp [clickDiagramTab, hf]

/-- Witness for C8: the initial state is reachable and its active type is
among the four variants. -/
theorem diagramViewer_invariant_witness :
    initialViewerState.activeDiagramType = DiagramType.flowchart ∨
    initialViewerState.activeDiagramType = DiagramType.erd ∨
    initialViewerState.activeDiagramType = DiagramType.sequence ∨
    initialViewerState.activeDiagramType = DiagramType.component :=
  (diagramViewer_invariant initialViewerState ViewerReachable.init).1

/-- C9: both signOut implementations return normally whether or not the
backend call throws, and in the resulting state the user, profile and
session are null and both storages are cleared. -/
theorem signOut_clears (backendFails : Bool) (s : AuthUiState) :
    (∃ s2, signOut backendFails s = Except.ok s2 ∧ s2.user = none ∧ s2.profile = none ∧
      s2.session = none ∧ s2.localStorageKeys = [] ∧ s2.sessionStorageKeys = []) ∧
    (∃ s3, signOutCached backendFails s = Except.ok s3 ∧ s3.user = none ∧ s3.profile = none ∧
      s3.session = none ∧ s3.localStorageKeys = [] ∧ s3.sessionStorageKeys = []) := by
  cases backendFails <;>
    exact ⟨⟨_, rfl, rfl, rfl, rfl, rfl, rfl⟩, ⟨_, rfl, rfl, rfl, rfl, rfl, rfl⟩⟩

/-- C10: the remove-member handler never calls removeMember for an owner: it
shows the cannot-remove error and returns. -/
theorem handleRemoveMember_owner_safe (m : TeamMember) (removeSucceeds : Bool)
    (h : m.role = MemberRole.owner) :
    (handleRemoveMember m removeSucceeds).removeMemberCalledOn = none ∧
    (handleRemoveMember m removeSucceeds).toast = "Cannot remove the owner" := by
  simp [handleRemoveMember, h]

/-- Witness for C10: removing an owner performs no removeMember call. -/
theorem handleRemoveMember_owner_safe_witness :
    (handleRemoveMember ⟨"alice", MemberRole.owner⟩ true).removeMemberCalledOn = none :=
  (handleRemoveMember_owner_safe ⟨"alice", MemberRole.owner⟩ true rfl).1
